import Mathlib

/-!
Verification of the assessment-agent repository.

The development shallowly embeds the repository's Python code:

* `stripFences` embeds the fence-stripping part of `LLMManeger._clean_json`
  (src/services/llmmanager.py, lines 42-45); Python strings are modelled as
  lists of Unicode code points (`PyStr`).
* `Json`, the schema record types and the `v...` validators embed the pydantic
  models of src/schema/schema.py (`AssessmentRequest`, `AssessmentResult` and
  their nested models) in the exact-type fragment of pydantic validation:
  a declared field type accepts exactly values of that type (plus `int` for a
  `float` field), required fields must be present, `Optional` fields accept
  `null`, declared defaults are used for absent fields, and the declared
  numeric bounds (`ge`/`le`) are enforced.  Python floats are modelled as
  exact rationals.
* `createAssessment` embeds `LLMManeger.create_assessment`
  (src/services/llmmanager.py, lines 48-70).  The external pieces - the
  prompt template, the network call and Python's `json.loads` - are inputs:
  the service reply is the `ChatResponse` argument and `json.loads` is the
  `jsonLoads` argument (a faithful instantiation is supplied at each use).
  The function returns the raised-or-returned outcome together with the list
  of messages emitted through `logger.error`.
* `invoke` embeds `AssesmentAgent.invoke` (src/agents/assementagent.py,
  lines 17-35); the dynamically typed argument is a `PyObject`, and the
  `isinstance` check is the match on its constructors.
-/

/-- A Python `str`: a sequence of Unicode code points. -/
abbrev PyStr := List Char

/-- Python `str.isspace` for a single character (restricted to the ASCII
whitespace that the repository's data can contain). -/
def pyIsSpace (c : Char) : Bool := c.isWhitespace

/-- Python `s.startswith(p)`. -/
def pyStartswith (s p : PyStr) : Bool := p.isPrefixOf s

/-- Python `s.endswith(p)`. -/
def pyEndswith (s p : PyStr) : Bool := p.isSuffixOf s

/-- Python `s.lstrip()`. -/
def pyStripLeft (s : PyStr) : PyStr := s.dropWhile pyIsSpace

/-- Python `s.rstrip()`. -/
def pyStripRight (s : PyStr) : PyStr := (s.reverse.dropWhile pyIsSpace).reverse

/-- Python `s.strip()`. -/
def pyStrip (s : PyStr) : PyStr := pyStripRight (pyStripLeft s)

/-- Python `s[n:]`. -/
def pySliceFrom (s : PyStr) (n : Nat) : PyStr := s.drop n

/-- Python `s[:-n]` (for `n ≥ 1`; empty when `n` exceeds the length). -/
def pySliceUpToNeg (s : PyStr) (n : Nat) : PyStr := s.take (s.length - n)

/-- The three-backtick Markdown code fence, the literal written "\x60\x60\x60"
in llmmanager.py. -/
def fence : PyStr := ['\x60', '\x60', '\x60']

/-- The tagged opening fence, the literal "\x60\x60\x60json" in llmmanager.py. -/
def fenceJson : PyStr := fence ++ "json".data

/-- The fence-stripping part of `LLMManeger._clean_json`
(src/services/llmmanager.py, lines 42-45):

    if data.startswith("\x60\x60\x60json"):
        data = data[8:].strip()
    if data.endswith("\x60\x60\x60"):
        data = data[:-3].strip()

The subsequent `json.loads(data)` is modelled separately (see
`createAssessment`). -/
def stripFences (data : PyStr) : PyStr :=
  let d1 := if pyStartswith data fenceJson then pyStrip (pySliceFrom data 8) else data
  if pyEndswith d1 fence then pyStrip (pySliceUpToNeg d1 3) else d1

/-- A parsed JSON value, as produced by Python's `json.loads`.  Python floats
are modelled as exact rationals. -/
inductive Json where
  | null
  | bool (b : Bool)
  | int (n : Int)
  | float (q : ℚ)
  | str (s : String)
  | arr (elems : List Json)
  | obj (fields : List (String × Json))

/-- Key lookup in a JSON object (Python `dict` access; keys are unique in a
dict produced by `json.loads`, so first match suffices). -/
def lookupField : List (String × Json) → String → Option Json
  | [], _ => none
  | (k, v) :: rest, name => if k = name then some v else lookupField rest name

/-- schema.py `BloomsTaxonomyLevel` (lines 8-16). -/
inductive BloomsTaxonomyLevel where
  | remember | understand | apply | analyze | evaluate | create

/-- The string value of each `BloomsTaxonomyLevel` member. -/
def bloomsValue : BloomsTaxonomyLevel → String
  | .remember => "remember"
  | .understand => "understand"
  | .apply => "apply"
  | .analyze => "analyze"
  | .evaluate => "evaluate"
  | .create => "create"

/-- Enum membership test for `BloomsTaxonomyLevel` values. -/
def bloomsOfValue (s : String) : Option BloomsTaxonomyLevel :=
  if s = "remember" then some .remember
  else if s = "understand" then some .understand
  else if s = "apply" then some .apply
  else if s = "analyze" then some .analyze
  else if s = "evaluate" then some .evaluate
  else if s = "create" then some .create
  else none

/-- schema.py `DifficultyLevel` (lines 19-25). -/
inductive DifficultyLevel where
  | easy | medium | hard | very_hard

/-- The string value of each `DifficultyLevel` member. -/
def difficultyValue : DifficultyLevel → String
  | .easy => "easy"
  | .medium => "medium"
  | .hard => "hard"
  | .very_hard => "very_hard"

/-- Enum membership test for `DifficultyLevel` values. -/
def difficultyOfValue (s : String) : Option DifficultyLevel :=
  if s = "easy" then some .easy
  else if s = "medium" then some .medium
  else if s = "hard" then some .hard
  else if s = "very_hard" then some .very_hard
  else none

/-- schema.py `QuestionType` (lines 28-33). -/
inductive QuestionType where
  | multiple_choice | short_answer | long_answer

/-- The string value of each `QuestionType` member. -/
def questionTypeValue : QuestionType → String
  | .multiple_choice => "multiple_choice"
  | .short_answer => "short_answer"
  | .long_answer => "long_answer"

/-- Enum membership test for `QuestionType` values. -/
def questionTypeOfValue (s : String) : Option QuestionType :=
  if s = "multiple_choice" then some .multiple_choice
  else if s = "short_answer" then some .short_answer
  else if s = "long_answer" then some .long_answer
  else none

/-- schema.py `MCQOption` (lines 36-41). -/
structure MCQOption where
  option_id : String
  text : String
  is_correct : Bool

/-- schema.py `AnswerKey` (lines 44-58); `correct_answer` is
`Optional[Union[str, List[str]]]`. -/
structure AnswerKey where
  correct_answer : Option (String ⊕ List String)
  explanation : Option String
  marking_criteria : Option String
  key_points : Option (List String)

/-- schema.py `Question` (lines 61-85). -/
structure Question where
  question_type : QuestionType
  question_text : String
  marks : Int
  blooms_level : BloomsTaxonomyLevel
  difficulty : DifficultyLevel
  options : Option (List MCQOption)
  answer_key : AnswerKey
  learning_objective_covered : Option String
  estimated_time_minutes : Option Int

/-- schema.py `AssessmentMetadata` (lines 88-103); the three distribution
fields are plain `dict`s, kept as raw JSON objects. -/
structure AssessmentMetadata where
  total_questions : Int
  total_marks : Int
  estimated_duration_minutes : Option Int
  difficulty_distribution : List (String × Json)
  question_type_distribution : List (String × Json)
  blooms_level_coverage : List (String × Json)

/-- schema.py `AssessmentResult` (lines 106-133). -/
structure AssessmentResult where
  title : String
  description : Option String
  curriculum_standard : String
  learning_objectives : String
  target_blooms_level : BloomsTaxonomyLevel
  questions : List Question
  metadata : AssessmentMetadata
  student_instructions : String
  teacher_notes : Option String

/-- schema.py `AssessmentRequest` (lines 136-171). -/
structure AssessmentRequest where
  curriculum_standard : String
  learning_objectives : String
  blooms_taxonomy_level : BloomsTaxonomyLevel
  toughness_level : DifficultyLevel
  total_marks : Int
  number_of_questions : Int
  additional_prompts : Option String
  mcq_percentage : Option ℚ
  short_answer_percentage : Option ℚ
  long_answer_percentage : Option ℚ
  response_format : Option String

/-- A required pydantic field: validation fails when the key is absent. -/
def reqField (fields : List (String × Json)) (name : String) : Except String Json :=
  match lookupField fields name with
  | some v => Except.ok v
  | none => Except.error ("Field required: " ++ name)

/-- An optional pydantic field: `none` when the key is absent. -/
def optField (fields : List (String × Json)) (name : String) : Option Json :=
  lookupField fields name

/-- Validation of a required `str` field value. -/
def vStr : Json → Except String String
  | .str s => Except.ok s
  | _ => Except.error "Input should be a valid string"

/-- Validation of a required `int` field value (no declared bound). -/
def vInt : Json → Except String Int
  | .int n => Except.ok n
  | _ => Except.error "Input should be a valid integer"

/-- Validation of a required `int` field value with a `ge` bound
(schema.py uses `ge=1` on `marks`, `total_marks` and `number_of_questions`). -/
def vIntGe (lo : Int) : Json → Except String Int
  | .int n =>
      if lo ≤ n then Except.ok n
      else Except.error "Input should be greater than or equal to 1"
  | _ => Except.error "Input should be a valid integer"

/-- Validation of an `Optional[str]` field with default `None`. -/
def vOptStr : Option Json → Except String (Option String)
  | none => Except.ok none
  | some .null => Except.ok none
  | some (.str s) => Except.ok (some s)
  | some _ => Except.error "Input should be a valid string"

/-- Validation of an `Optional[int]` field with default `None`. -/
def vOptInt : Option Json → Except String (Option Int)
  | none => Except.ok none
  | some .null => Except.ok none
  | some (.int n) => Except.ok (some n)
  | some _ => Except.error "Input should be a valid integer"

/-- Validation of a `BloomsTaxonomyLevel` enum field value. -/
def vBlooms : Json → Except String BloomsTaxonomyLevel
  | .str s =>
      match bloomsOfValue s with
      | some b => Except.ok b
      | none => Except.error "Input should be a valid BloomsTaxonomyLevel"
  | _ => Except.error "Input should be a valid BloomsTaxonomyLevel"

/-- Validation of a `DifficultyLevel` enum field value. -/
def vDifficulty : Json → Except String DifficultyLevel
  | .str s =>
      match difficultyOfValue s with
      | some d => Except.ok d
      | none => Except.error "Input should be a valid DifficultyLevel"
  | _ => Except.error "Input should be a valid DifficultyLevel"

/-- Validation of a `QuestionType` enum field value. -/
def vQuestionType : Json → Except String QuestionType
  | .str s =>
      match questionTypeOfValue s with
      | some q => Except.ok q
      | none => Except.error "Input should be a valid QuestionType"
  | _ => Except.error "Input should be a valid QuestionType"

/-- Validation of `MCQOption.is_correct`: `bool = Field(False, ...)`, so an
absent key yields the default `False` and a present value must be a bool. -/
def vBoolDefaultFalse : Option Json → Except String Bool
  | none => Except.ok false
  | some (.bool b) => Except.ok b
  | some _ => Except.error "Input should be a valid boolean"

/-- Validation of `AnswerKey.correct_answer`:
`Optional[Union[str, List[str]]]` with default `None`. -/
def vCorrectAnswer : Option Json → Except String (Option (String ⊕ List String))
  | none => Except.ok none
  | some .null => Except.ok none
  | some (.str s) => Except.ok (some (Sum.inl s))
  | some (.arr xs) => (xs.mapM vStr).map (fun l => some (Sum.inr l))
  | some _ => Except.error "Input should be a valid string or list of strings"

/-- Validation of an `Optional[List[str]]` field with default `None`
(`AnswerKey.key_points`). -/
def vOptStrList : Option Json → Except String (Option (List String))
  | none => Except.ok none
  | some .null => Except.ok none
  | some (.arr xs) => (xs.mapM vStr).map some
  | some _ => Except.error "Input should be a valid list"

/-- `MCQOption.model_validate` (schema.py lines 36-41). -/
def vMCQOption : Json → Except String MCQOption
  | .obj fields => do
      let oid ← reqField fields "option_id" >>= vStr
      let t ← reqField fields "text" >>= vStr
      let ic ← vBoolDefaultFalse (optField fields "is_correct")
      Except.ok ⟨oid, t, ic⟩
  | _ => Except.error "Input should be a valid dictionary"

/-- Validation of `Question.options`: `Optional[List[MCQOption]]` with
default `None`. -/
def vOptMCQOptions : Option Json → Except String (Option (List MCQOption))
  | none => Except.ok none
  | some .null => Except.ok none
  | some (.arr xs) => (xs.mapM vMCQOption).map some
  | some _ => Except.error "Input should be a valid list"

/-- `AnswerKey.model_validate` (schema.py lines 44-58); every field is
optional with default `None`. -/
def vAnswerKey : Json → Except String AnswerKey
  | .obj fields => do
      let ca ← vCorrectAnswer (optField fields "correct_answer")
      let ex ← vOptStr (optField fields "explanation")
      let mc ← vOptStr (optField fields "marking_criteria")
      let kp ← vOptStrList (optField fields "key_points")
      Except.ok ⟨ca, ex, mc, kp⟩
  | _ => Except.error "Input should be a valid dictionary"

/-- `Question.model_validate` (schema.py lines 61-85), fields in declaration
order; `marks` carries `ge=1`. -/
def vQuestion : Json → Except String Question
  | .obj fields => do
      let qt ← reqField fields "question_type" >>= vQuestionType
      let qx ← reqField fields "question_text" >>= vStr
      let mk ← reqField fields "marks" >>= vIntGe 1
      let bl ← reqField fields "blooms_level" >>= vBlooms
      let df ← reqField fields "difficulty" >>= vDifficulty
      let op ← vOptMCQOptions (optField fields "options")
      let ak ← reqField fields "answer_key" >>= vAnswerKey
      let lo ← vOptStr (optField fields "learning_objective_covered")
      let et ← vOptInt (optField fields "estimated_time_minutes")
      Except.ok ⟨qt, qx, mk, bl, df, op, ak, lo, et⟩
  | _ => Except.error "Input should be a valid dictionary"

/-- Validation of a required plain `dict` field value
(the three distribution fields of `AssessmentMetadata`). -/
def vDict : Json → Except String (List (String × Json))
  | .obj fields => Except.ok fields
  | _ => Except.error "Input should be a valid dictionary"

/-- `AssessmentMetadata.model_validate` (schema.py lines 88-103). -/
def vMetadata : Json → Except String AssessmentMetadata
  | .obj fields => do
      let tq ← reqField fields "total_questions" >>= vInt
      let tm ← reqField fields "total_marks" >>= vInt
      let ed ← vOptInt (optField fields "estimated_duration_minutes")
      let dd ← reqField fields "difficulty_distribution" >>= vDict
      let qd ← reqField fields "question_type_distribution" >>= vDict
      let bc ← reqField fields "blooms_level_coverage" >>= vDict
      Except.ok ⟨tq, tm, ed, dd, qd, bc⟩
  | _ => Except.error "Input should be a valid dictionary"

/-- Validation of `List[Question]` (`AssessmentResult.questions`). -/
def vQuestionList : Json → Except String (List Question)
  | .arr xs => xs.mapM vQuestion
  | _ => Except.error "Input should be a valid list"

/-- `AssessmentResult.model_validate` (schema.py lines 106-133), fields in
declaration order. -/
def vAssessmentResult : Json → Except String AssessmentResult
  | .obj fields => do
      let ti ← reqField fields "title" >>= vStr
      let de ← vOptStr (optField fields "description")
      let cs ← reqField fields "curriculum_standard" >>= vStr
      let lo ← reqField fields "learning_objectives" >>= vStr
      let tb ← reqField fields "target_blooms_level" >>= vBlooms
      let qs ← reqField fields "questions" >>= vQuestionList
      let md ← reqField fields "metadata" >>= vMetadata
      let si ← reqField fields "student_instructions" >>= vStr
      let tn ← vOptStr (optField fields "teacher_notes")
      Except.ok ⟨ti, de, cs, lo, tb, qs, md, si, tn⟩
  | _ => Except.error "Input should be a valid dictionary"

/-- Validation of the percentage fields of `AssessmentRequest`:
`Optional[float] = Field(dflt, ge=0, le=1)`.  An absent key yields the
declared default, an explicit `null` yields `None`, and a number must lie
in `[0, 1]` (an `int` is coerced to `float` as pydantic does). -/
def vOptFracDefault (dflt : ℚ) : Option Json → Except String (Option ℚ)
  | none => Except.ok (some dflt)
  | some .null => Except.ok none
  | some (.float q) =>
      if 0 ≤ q ∧ q ≤ 1 then Except.ok (some q)
      else Except.error "Input should be between 0 and 1"
  | some (.int n) =>
      if 0 ≤ n ∧ n ≤ 1 then Except.ok (some (n : ℚ))
      else Except.error "Input should be between 0 and 1"
  | some _ => Except.error "Input should be a valid number"

/-- Validation of `AssessmentRequest.response_format`:
`Optional[str]` whose declared default is the serialized JSON schema of
`AssessmentResult` (`json.dumps(AssessmentResult.model_json_schema())`).
That default text is produced by the external pydantic schema generator, so
it is passed in as `dflt`. -/
def vOptStrDefault (dflt : String) : Option Json → Except String (Option String)
  | none => Except.ok (some dflt)
  | some .null => Except.ok none
  | some (.str s) => Except.ok (some s)
  | some _ => Except.error "Input should be a valid string"

/-- `AssessmentRequest` construction / `model_validate`
(schema.py lines 136-171), fields in declaration order: `total_marks` and
`number_of_questions` carry `ge=1`, the three percentage fields carry
`ge=0, le=1` with defaults `0.4`, `0.3`, `0.3`, and `response_format`
defaults to the externally generated schema text `responseFormatDefault`. -/
def vAssessmentRequest (responseFormatDefault : String) : Json → Except String AssessmentRequest
  | .obj fields => do
      let cs ← reqField fields "curriculum_standard" >>= vStr
      let lo ← reqField fields "learning_objectives" >>= vStr
      let bl ← reqField fields "blooms_taxonomy_level" >>= vBlooms
      let tl ← reqField fields "toughness_level" >>= vDifficulty
      let tm ← reqField fields "total_marks" >>= vIntGe 1
      let nq ← reqField fields "number_of_questions" >>= vIntGe 1
      let ap ← vOptStr (optField fields "additional_prompts")
      let mp ← vOptFracDefault (4 / 10) (optField fields "mcq_percentage")
      let sp ← vOptFracDefault (3 / 10) (optField fields "short_answer_percentage")
      let lp ← vOptFracDefault (3 / 10) (optField fields "long_answer_percentage")
      let rf ← vOptStrDefault responseFormatDefault (optField fields "response_format")
      Except.ok ⟨cs, lo, bl, tl, tm, nq, ap, mp, sp, lp, rf⟩
  | _ => Except.error "Input should be a valid dictionary"

/-- Structural serialization of an `Option String` field value
(`model_dump` emits `None` as JSON `null`). -/
def optStrJson : Option String → Json
  | none => Json.null
  | some s => Json.str s

/-- Structural serialization of an `Option ℚ` (float) field value. -/
def optFloatJson : Option ℚ → Json
  | none => Json.null
  | some q => Json.float q

/-- `AssessmentRequest.model_dump` as a JSON object: every field under its
declared name, enums as their string values. -/
def dumpRequest (r : AssessmentRequest) : Json :=
  Json.obj
    [("curriculum_standard", Json.str r.curriculum_standard),
     ("learning_objectives", Json.str r.learning_objectives),
     ("blooms_taxonomy_level", Json.str (bloomsValue r.blooms_taxonomy_level)),
     ("toughness_level", Json.str (difficultyValue r.toughness_level)),
     ("total_marks", Json.int r.total_marks),
     ("number_of_questions", Json.int r.number_of_questions),
     ("additional_prompts", optStrJson r.additional_prompts),
     ("mcq_percentage", optFloatJson r.mcq_percentage),
     ("short_answer_percentage", optFloatJson r.short_answer_percentage),
     ("long_answer_percentage", optFloatJson r.long_answer_percentage),
     ("response_format", optStrJson r.response_format)]

/-- One completion choice of the external service's reply;
`content` is `choices[i].message.content`. -/
structure ChatChoice where
  content : PyStr

/-- The external service's reply: a list of completion choices. -/
structure ChatResponse where
  choices : List ChatChoice

/-- A raised Python exception, by class and message.  The repository raises
only `ValueError`s; `typeError` records Python's distinct `TypeError` class. -/
inductive PyError where
  | valueError (msg : String)
  | typeError (msg : String)

/-- `LLMManeger.create_assessment` (src/services/llmmanager.py, lines 48-70)
from the service reply on: prompt rendering and the network call are external
(the reply is the `response` argument), and Python's `json.loads` is the
`jsonLoads` argument, returning the parsed value or the `str(e)` of a
`json.JSONDecodeError`.  The result pairs the returned value or raised
exception with the messages emitted through `logger.error`:

    if response.choices:
        content = response.choices[0].message.content
        try:
            data = self._clean_json(content)
            return AssessmentResult.model_validate(data)
        except Exception as e:
            logger.error(f"Error parsing response: " + content)
            raise ValueError("Failed to parse JSON response: " + str(e))
    else:
        raise ValueError("No response from the LLM or invalid response format.")
-/
def createAssessment (jsonLoads : PyStr → Except String Json)
    (response : ChatResponse) : Except PyError AssessmentResult × List String :=
  match response.choices with
  | [] =>
      (Except.error (PyError.valueError "No response from the LLM or invalid response format."),
       [])
  | choice :: _ =>
      match jsonLoads (stripFences choice.content) with
      | Except.error e =>
          (Except.error (PyError.valueError ("Failed to parse JSON response: " ++ e)),
           ["Error parsing response: " ++ String.mk choice.content])
      | Except.ok data =>
          match vAssessmentResult data with
          | Except.error e =>
              (Except.error (PyError.valueError ("Failed to parse JSON response: " ++ e)),
               ["Error parsing response: " ++ String.mk choice.content])
          | Except.ok result => (Except.ok result, [])

/-- A dynamically typed Python value passed to `AssesmentAgent.invoke`:
a proper `AssessmentRequest` instance, a plain mapping (`dict`), or any
other object. -/
inductive PyObject where
  | request (r : AssessmentRequest)
  | dict (fields : List (String × Json))
  | other (descr : String)

/-- `AssesmentAgent.invoke` (src/agents/assementagent.py, lines 17-35):

    if not isinstance(request, AssessmentRequest):
        raise ValueError("Invalid request type")
    response = self.llm.create_assessment(request)
    return response

The `isinstance` check is the match on the `PyObject` constructors; on a
proper request it delegates to `createAssessment` (same external inputs)
and returns its outcome unchanged. -/
def invoke (jsonLoads : PyStr → Except String Json) (request : PyObject)
    (response : ChatResponse) : Except PyError AssessmentResult × List String :=
  match request with
  | PyObject.request _ => createAssessment jsonLoads response
  | _ => (Except.error (PyError.valueError "Invalid request type"), [])

/-- Whether `needle` occurs inside `hay` (used to state that an exception
message carries a given text). -/
def strContainsSub (hay needle : String) : Bool :=
  (List.range (hay.data.length + 1)).any (fun i => needle.data.isPrefixOf (hay.data.drop i))

theorem exceptBind_ok {α β : Type} {x : Except String α} {f : α → Except String β} {b : β}
    (h : x >>= f = Except.ok b) : ∃ a, x = Except.ok a ∧ f a = Except.ok b := by
  cases x with
  | error e =>
      have hred : (Except.error e : Except String α) >>= f = Except.error e := rfl
      rw [hred] at h
      exact Except.noConfusion h
  | ok a => exact ⟨a, rfl, by simpa only [Bind.bind, Except.bind] using h⟩

theorem pyStartswith_iff {s p : PyStr} : pyStartswith s p = true ↔ p <+: s :=
  List.isPrefixOf_iff_prefix

theorem pyEndswith_iff {s p : PyStr} : pyEndswith s p = true ↔ p <:+ s :=
  List.isSuffixOf_iff_suffix

theorem fencePre_of_fenceJsonPre {s : PyStr} (h : fenceJson <+: s) : fence <+: s := by
  obtain ⟨t, ht⟩ := h
  exact ⟨"json".data ++ t, by rw [← ht, fenceJson, List.append_assoc]⟩

theorem dropWhile_cons_nonspace {c : Char} (l : PyStr) (hc : pyIsSpace c = false) :
    (c :: l).dropWhile pyIsSpace = c :: l := by
  rw [List.dropWhile_cons, hc]
  simp

theorem head_nonspace_of_dropWhile_eq {c : Char} {l : PyStr}
    (h : (c :: l).dropWhile pyIsSpace = c :: l) : pyIsSpace c = false := by
  by_contra hx
  rw [List.dropWhile_cons, eq_true_of_ne_false hx, if_pos rfl] at h
  have hlen := (List.dropWhile_sublist (l := l) pyIsSpace).length_le
  rw [h] at hlen
  simp at hlen

/-- C9: for every raw reply text that neither begins with a code fence nor ends
with one, the cleaning step of `_clean_json` is the identity on the text before
JSON parsing. -/
theorem C9_no_fences_noop (s : PyStr) (h1 : pyStartswith s fence = false)
    (h2 : pyEndswith s fence = false) : stripFences s = s := by
  have hj : pyStartswith s fenceJson = false := by
    by_contra hx
    have hpre : fenceJson <+: s := pyStartswith_iff.mp (eq_true_of_ne_false hx)
    have : pyStartswith s fence = true := pyStartswith_iff.mpr (fencePre_of_fenceJsonPre hpre)
    rw [h1] at this
    exact Bool.false_ne_true this
  simp [stripFences, hj, h2]

/-- C9 witness: a concrete fence-free reply text is untouched by the cleaning
step. -/
theorem C9_witness :
    pyStartswith "hello world".data fence = false ∧
    pyEndswith "hello world".data fence = false ∧
    stripFences "hello world".data = "hello world".data :=
  ⟨by decide, by decide, C9_no_fences_noop _ (by decide) (by decide)⟩

/-- C5: on the raw reply text "\x60\x60\x60json\n\x7b\"a\":1\x7d\n\x60\x60\x60"
the cleaning step of `_clean_json` yields exactly the text
"\x7b\"a\":1\x7d", with no leading or trailing fence characters or
whitespace, before JSON parsing. -/
theorem C5_concrete_cleaning :
    stripFences "```json\n\x7b\"a\":1\x7d\n```".data = "\x7b\"a\":1\x7d".data := by
  decide

/-- C4: on a service reply with zero completion choices, `create_assessment`
fails with the empty-response condition (realized, as the code realizes every
failure class of the spec taxonomy, as a `ValueError` with its distinctive
message), it consumes no parser and no validator (the outcome is the same for
every `jsonLoads`), logs nothing, and performs no retry (the single reply is
consumed exactly once). -/
theorem C4_empty_choices (jsonLoads : PyStr → Except String Json) :
    createAssessment jsonLoads ⟨[]⟩ =
      (Except.error (PyError.valueError "No response from the LLM or invalid response format."),
       []) := rfl

/-- C2 (amended): on a service reply whose cleaned content fails JSON parsing,
or parses but fails `AssessmentResult` validation, `create_assessment` raises
a `ValueError` that wraps the underlying error message — and it logs (rather
than carries in the raised condition) the original raw reply text; no second
repair pass is attempted (the single parse/validate outcome fully determines
the failure). -/
theorem C2_parse_failure (jsonLoads : PyStr → Except String Json) (content : PyStr)
    (rest : List ChatChoice) :
    (∀ e, jsonLoads (stripFences content) = Except.error e →
      createAssessment jsonLoads ⟨⟨content⟩ :: rest⟩ =
        (Except.error (PyError.valueError ("Failed to parse JSON response: " ++ e)),
         ["Error parsing response: " ++ String.mk content])) ∧
    (∀ d e, jsonLoads (stripFences content) = Except.ok d →
      vAssessmentResult d = Except.error e →
      createAssessment jsonLoads ⟨⟨content⟩ :: rest⟩ =
        (Except.error (PyError.valueError ("Failed to parse JSON response: " ++ e)),
         ["Error parsing response: " ++ String.mk content])) := by
  constructor
  · intro e he
    simp [createAssessment, he]
  · intro d e hd he
    simp [createAssessment, hd, he]

/-- C2 counterexample: for the raw reply text "ZZZZ" (not valid JSON), with
`json.loads` reporting, as Python does on this input, "Expecting value: line 1
column 1 (char 0)", the raised condition's message does not contain the
original raw reply text — the raw text only reaches the log. -/
theorem C2_counterexample :
    createAssessment (fun _ => Except.error "Expecting value: line 1 column 1 (char 0)")
        ⟨[⟨"ZZZZ".data⟩]⟩ =
      (Except.error (PyError.valueError
         "Failed to parse JSON response: Expecting value: line 1 column 1 (char 0)"),
       ["Error parsing response: ZZZZ"]) ∧
    strContainsSub "Failed to parse JSON response: Expecting value: line 1 column 1 (char 0)"
      "ZZZZ" = false ∧
    strContainsSub "Error parsing response: ZZZZ" "ZZZZ" = true := by
  exact ⟨rfl, by decide, by decide⟩

/-- C2 witness: the amended theorem applied to a concrete unparseable reply. -/
theorem C2_witness :
    createAssessment (fun _ => Except.error "Expecting value: line 1 column 1 (char 0)")
        ⟨[⟨"notjson".data⟩]⟩ =
      (Except.error (PyError.valueError
         "Failed to parse JSON response: Expecting value: line 1 column 1 (char 0)"),
       ["Error parsing response: notjson"]) :=
  (C2_parse_failure (fun _ => Except.error "Expecting value: line 1 column 1 (char 0)")
    "notjson".data []).1 "Expecting value: line 1 column 1 (char 0)" rfl

/-- C3 (amended): `Agent.invoke` rejects every argument that is not a proper
`AssessmentRequest` instance with a `ValueError` (message "Invalid request
type") — the Python class raised is `ValueError`, not `TypeError` — and on a
proper request it delegates to `create_assessment` and returns its outcome
unchanged, adding no other logic. -/
theorem C3_invoke_contract (jsonLoads : PyStr → Except String Json) (arg : PyObject)
    (response : ChatResponse) :
    ((∀ r, arg ≠ PyObject.request r) →
      invoke jsonLoads arg response =
        (Except.error (PyError.valueError "Invalid request type"), [])) ∧
    (∀ r, arg = PyObject.request r →
      invoke jsonLoads arg response = createAssessment jsonLoads response) := by
  constructor
  · intro h
    cases arg with
    | request r => exact absurd rfl (h r)
    | dict fields => rfl
    | other descr => rfl
  · intro r h
    subst h
    rfl

/-- C3 counterexample: a plain mapping passed to `invoke` is rejected with the
`ValueError` class, not with Python's `TypeError` class as the claim states. -/
theorem C3_counterexample :
    (invoke (fun _ => Except.error "e") (PyObject.dict [("total_marks", Json.int 10)])
        ⟨[]⟩).1 =
      Except.error (PyError.valueError "Invalid request type") ∧
    ∀ m, (invoke (fun _ => Except.error "e") (PyObject.dict [("total_marks", Json.int 10)])
        ⟨[]⟩).1 ≠
      Except.error (PyError.typeError m) := by
  refine ⟨rfl, ?_⟩
  intro m h
  have h' : Except.error (ε := PyError) (α := AssessmentResult)
      (PyError.valueError "Invalid request type") =
      Except.error (PyError.typeError m) := h
  injection h' with h2
  exact PyError.noConfusion h2

/-- C3 witness: the amended theorem applied to a concrete plain mapping and to
a concrete proper request. -/
theorem C3_witness :
    invoke (fun _ => Except.error "e") (PyObject.dict []) ⟨[]⟩ =
      (Except.error (PyError.valueError "Invalid request type"), []) ∧
    invoke (fun _ => Except.error "e")
        (PyObject.request ⟨"c", "l", BloomsTaxonomyLevel.remember, DifficultyLevel.easy, 1, 1,
          none, none, none, none, none⟩) ⟨[]⟩ =
      createAssessment (fun _ => Except.error "e") ⟨[]⟩ :=
  ⟨(C3_invoke_contract (fun _ => Except.error "e") (PyObject.dict []) ⟨[]⟩).1
      (fun _ h => PyObject.noConfusion h),
   (C3_invoke_contract (fun _ => Except.error "e") _ ⟨[]⟩).2 _ rfl⟩

theorem fence_dropWhileLeft (x : PyStr) :
    (fence ++ x).dropWhile pyIsSpace = fence ++ x := by
  have h : fence ++ x = '\x60' :: (['\x60', '\x60'] ++ x) := rfl
  rw [h]
  exact dropWhile_cons_nonspace _ (by decide)

theorem stripRight_fenceTail (x : PyStr) : pyStripRight (x ++ fence) = x ++ fence := by
  unfold pyStripRight
  rw [List.reverse_append]
  have hrev : fence.reverse = fence := rfl
  rw [hrev, fence_dropWhileLeft, List.reverse_append, List.reverse_reverse, hrev]

theorem pyStrip_body_close {b : Char} (bs : PyStr) (hb : pyIsSpace b = false) :
    pyStrip ((b :: bs) ++ ('\n' :: fence)) = (b :: bs) ++ ('\n' :: fence) := by
  unfold pyStrip pyStripLeft
  rw [List.cons_append, dropWhile_cons_nonspace _ hb, ← List.cons_append]
  have hassoc : (b :: bs) ++ ('\n' :: fence) = ((b :: bs) ++ ['\n']) ++ fence := by
    simp [List.append_assoc]
  rw [hassoc, stripRight_fenceTail]

theorem pyStrip_snoc_newline {b : Char} (bs : PyStr) (hb : pyIsSpace b = false)
    (hR : (b :: bs).reverse.dropWhile pyIsSpace = (b :: bs).reverse) :
    pyStrip ((b :: bs) ++ ['\n']) = b :: bs := by
  unfold pyStrip pyStripLeft
  rw [List.cons_append, dropWhile_cons_nonspace _ hb, ← List.cons_append]
  unfold pyStripRight
  rw [List.reverse_append]
  simp only [List.reverse_singleton, List.singleton_append]
  have hdw : pyIsSpace '\n' = true := by decide
  rw [List.dropWhile_cons, hdw, if_pos rfl, hR, List.reverse_reverse]

theorem stripRight_keepsFence (u : PyStr) : fence <+: pyStripRight (fence ++ u) := by
  induction u using List.reverseRecOn with
  | nil =>
      rw [List.append_nil]
      decide
  | append_singleton u c ih =>
      rw [← List.append_assoc]
      by_cases hc : pyIsSpace c = true
      · have hstep : pyStripRight ((fence ++ u) ++ [c]) = pyStripRight (fence ++ u) := by
          unfold pyStripRight
          rw [List.reverse_append]
          simp only [List.reverse_singleton, List.singleton_append]
          rw [List.dropWhile_cons, hc, if_pos rfl]
        rw [hstep]
        exact ih
      · have hc' : pyIsSpace c = false := by simpa using hc
        have hstep : pyStripRight ((fence ++ u) ++ [c]) = (fence ++ u) ++ [c] := by
          unfold pyStripRight
          rw [List.reverse_append]
          simp only [List.reverse_singleton, List.singleton_append]
          rw [dropWhile_cons_nonspace _ hc', List.reverse_cons, List.reverse_reverse]
        rw [hstep, List.append_assoc]
        exact ⟨u ++ [c], rfl⟩

/-- C1 counterexample: a reply opening with a bare fence (no language tag) is
NOT cleaned the same as one opening with the tagged fence: the bare opening
fence survives the cleaning step, so the two inputs clean to different texts. -/
theorem C1_counterexample :
    stripFences "```\n\x7b\"a\":1\x7d\n```".data = "```\n\x7b\"a\":1\x7d".data ∧
    pyStartswith (stripFences "```\n\x7b\"a\":1\x7d\n```".data) fence = true ∧
    stripFences "```\n\x7b\"a\":1\x7d\n```".data ≠
      stripFences "```json\n\x7b\"a\":1\x7d\n```".data := by
  exact ⟨by decide, by decide, by decide⟩

/-- C1 (amended): the cleaning step strips a leading fence only when it is the
tagged form "\x60\x60\x60json" (the slice `data[8:]` then also eats the single
character right after the tag — here the separator `c` — and the `strip()`
calls remove the whitespace around the body), and always strips a trailing
closing fence; a reply opening with a bare untagged fence keeps its leading
fence: the cleaned text still begins with "\x60\x60\x60". -/
theorem C1_fence_cleaning :
    (∀ (c : Char) (body : PyStr),
      body.dropWhile pyIsSpace = body →
      body.reverse.dropWhile pyIsSpace = body.reverse →
      stripFences (fenceJson ++ (c :: (body ++ ('\n' :: fence)))) = body) ∧
    (∀ s : PyStr, 6 ≤ s.length → pyStartswith s fence = true →
      pyStartswith s fenceJson = false → fence <+: stripFences s) := by
  constructor
  · intro c body hL hR
    cases body with
    | nil => rfl
    | cons b bs =>
        have hb : pyIsSpace b = false := head_nonspace_of_dropWhile_eq hL
        have hstart :
            pyStartswith (fenceJson ++ (c :: ((b :: bs) ++ ('\n' :: fence)))) fenceJson
              = true :=
          pyStartswith_iff.mpr ⟨_, rfl⟩
        have hdrop :
            pySliceFrom (fenceJson ++ (c :: ((b :: bs) ++ ('\n' :: fence)))) 8 =
              (b :: bs) ++ ('\n' :: fence) := rfl
        have hend : pyEndswith ((b :: bs) ++ ('\n' :: fence)) fence = true :=
          pyEndswith_iff.mpr ⟨(b :: bs) ++ ['\n'], by simp [List.append_assoc]⟩
        have hslice :
            pySliceUpToNeg ((b :: bs) ++ ('\n' :: fence)) 3 = (b :: bs) ++ ['\n'] := by
          unfold pySliceUpToNeg
          have h1 : ((b :: bs) ++ ('\n' :: fence)).length - 3 = ((b :: bs) ++ ['\n']).length := by
            simp [fence]
          have h2 : (b :: bs) ++ ('\n' :: fence) = ((b :: bs) ++ ['\n']) ++ fence := by
            simp [List.append_assoc]
          rw [h1, h2, List.take_left]
        unfold stripFences
        simp only [hstart, if_pos]
        rw [hdrop, pyStrip_body_close bs hb]
        simp only [hend, if_pos]
        rw [hslice, pyStrip_snoc_newline bs hb hR]
  · intro s hlen h3 hj
    obtain ⟨t, ht⟩ := pyStartswith_iff.mp h3
    subst ht
    have htlen : 3 ≤ t.length := by
      rw [List.length_append] at hlen
      simp [fence] at hlen
      omega
    unfold stripFences
    simp only [hj, Bool.false_eq_true, if_false]
    by_cases hend : pyEndswith (fence ++ t) fence = true
    · simp only [hend, if_pos]
      have hslice : pySliceUpToNeg (fence ++ t) 3 = fence ++ t.take (t.length - 3) := by
        unfold pySliceUpToNeg
        rw [List.take_append_eq_append_take]
        have h1 : (fence ++ t).length - 3 = t.length := by simp [fence]
        rw [h1]
        have h2 : t.take (t.length - fence.length) = t.take (t.length - 3) := by
          simp [fence]
        rw [h2, List.take_of_length_le (by simp [fence]; omega : fence.length ≤ t.length)]
      rw [hslice]
      unfold pyStrip pyStripLeft
      rw [fence_dropWhileLeft]
      exact stripRight_keepsFence _
    · have hend' : pyEndswith (fence ++ t) fence = false := by
        simpa using hend
      simp only [hend', Bool.false_eq_true, if_false]
      exact ⟨t, rfl⟩

/-- C1 witness: the amended theorem applied to a concrete tagged reply and to
a concrete bare-fenced reply. -/
theorem C1_witness :
    stripFences (fenceJson ++ ('\n' :: ("ok".data ++ ('\n' :: fence)))) = "ok".data ∧
    fence <+: stripFences "```\nok\n```".data :=
  ⟨C1_fence_cleaning.1 '\n' "ok".data (by decide) (by decide),
   C1_fence_cleaning.2 "```\nok\n```".data (by decide) (by decide) (by decide)⟩

theorem vIntGe_ok_inv {lo : Int} {j : Json} {n : Int} (h : vIntGe lo j = Except.ok n) :
    j = Json.int n ∧ lo ≤ n := by
  cases j with
  | int m =>
      by_cases hc : lo ≤ m
      · have h2 : Except.ok (ε := String) m = Except.ok n := by
          rw [← h]; simp [vIntGe, hc]
        injection h2 with h3
        subst h3
        exact ⟨rfl, hc⟩
      · exfalso
        have h2 : vIntGe lo (Json.int m) =
            Except.error "Input should be greater than or equal to 1" := by
          simp [vIntGe, hc]
        rw [h2] at h
        exact Except.noConfusion h
  | null => exact Except.noConfusion h
  | bool b => exact Except.noConfusion h
  | float q => exact Except.noConfusion h
  | str s => exact Except.noConfusion h
  | arr xs => exact Except.noConfusion h
  | obj fs => exact Except.noConfusion h

theorem vAssessmentRequest_ok_inv {d : String} {fields : List (String × Json)}
    {r : AssessmentRequest}
    (h : vAssessmentRequest d (Json.obj fields) = Except.ok r) :
    (reqField fields "total_marks" >>= vIntGe 1) = Except.ok r.total_marks ∧
    (reqField fields "number_of_questions" >>= vIntGe 1) = Except.ok r.number_of_questions ∧
    vOptFracDefault (4 / 10) (optField fields "mcq_percentage") = Except.ok r.mcq_percentage ∧
    vOptFracDefault (3 / 10) (optField fields "short_answer_percentage")
      = Except.ok r.short_answer_percentage ∧
    vOptFracDefault (3 / 10) (optField fields "long_answer_percentage")
      = Except.ok r.long_answer_percentage ∧
    vOptStrDefault d (optField fields "response_format") = Except.ok r.response_format := by
  simp only [vAssessmentRequest] at h
  obtain ⟨cs, h1, h⟩ := exceptBind_ok h
  obtain ⟨lo, h2, h⟩ := exceptBind_ok h
  obtain ⟨bl, h3, h⟩ := exceptBind_ok h
  obtain ⟨tl, h4, h⟩ := exceptBind_ok h
  obtain ⟨tm, h5, h⟩ := exceptBind_ok h
  obtain ⟨nq, h6, h⟩ := exceptBind_ok h
  obtain ⟨ap, h7, h⟩ := exceptBind_ok h
  obtain ⟨mp, h8, h⟩ := exceptBind_ok h
  obtain ⟨sp, h9, h⟩ := exceptBind_ok h
  obtain ⟨lp, h10, h⟩ := exceptBind_ok h
  obtain ⟨rf, h11, h⟩ := exceptBind_ok h
  injection h with h12
  subst h12
  exact ⟨h5, h6, h8, h9, h10, h11⟩

/-- C7: `AssessmentRequest` construction fails with a validation error whenever
`total_marks` is zero or negative, and any successfully constructed request has
an integer `total_marks ≥ 1` (the `ge=1` bound of schema.py line 149). -/
theorem C7_total_marks_bound (d : String) :
    (∀ (fields : List (String × Json)) (n : Int),
      lookupField fields "total_marks" = some (Json.int n) → n ≤ 0 →
      ∃ e, vAssessmentRequest d (Json.obj fields) = Except.error e) ∧
    (∀ (j : Json) (r : AssessmentRequest),
      vAssessmentRequest d j = Except.ok r → 1 ≤ r.total_marks) := by
  constructor
  · intro fields n hlook hneg
    cases hres : vAssessmentRequest d (Json.obj fields) with
    | error e => exact ⟨e, rfl⟩
    | ok r =>
        exfalso
        obtain ⟨htm, -, -, -, -, -⟩ := vAssessmentRequest_ok_inv hres
        obtain ⟨v, hv, hIntGe⟩ := exceptBind_ok htm
        rw [reqField, hlook] at hv
        injection hv with hv2
        obtain ⟨hv3, hge⟩ := vIntGe_ok_inv hIntGe
        rw [← hv2] at hv3
        injection hv3 with hv4
        omega
  · intro j r hok
    cases j with
    | obj fields =>
        obtain ⟨htm, -, -, -, -, -⟩ := vAssessmentRequest_ok_inv hok
        obtain ⟨v, hv, hIntGe⟩ := exceptBind_ok htm
        exact (vIntGe_ok_inv hIntGe).2
    | null => exact Except.noConfusion hok
    | bool b => exact Except.noConfusion hok
    | int n => exact Except.noConfusion hok
    | float q => exact Except.noConfusion hok
    | str s => exact Except.noConfusion hok
    | arr xs => exact Except.noConfusion hok

/-- C7 witness: a request whose `total_marks` is `0` is rejected, and the
bound just proved applies to a concrete accepted request. -/
theorem C7_witness :
    (∃ e, vAssessmentRequest "dflt"
        (Json.obj
          [("curriculum_standard", Json.str "cs"), ("learning_objectives", Json.str "lo"),
           ("blooms_taxonomy_level", Json.str "remember"), ("toughness_level", Json.str "easy"),
           ("total_marks", Json.int 0), ("number_of_questions", Json.int 4)]) =
        Except.error e) ∧
    1 ≤ (⟨"cs", "lo", BloomsTaxonomyLevel.remember, DifficultyLevel.easy, 10, 4, none,
          some (4 / 10), some (3 / 10), some (3 / 10),
          some "dflt"⟩ : AssessmentRequest).total_marks :=
  ⟨(C7_total_marks_bound "dflt").1 _ 0 rfl (by decide),
   (C7_total_marks_bound "dflt").2
     (Json.obj
       [("curriculum_standard", Json.str "cs"), ("learning_objectives", Json.str "lo"),
        ("blooms_taxonomy_level", Json.str "remember"), ("toughness_level", Json.str "easy"),
        ("total_marks", Json.int 10), ("number_of_questions", Json.int 4)]) _ rfl⟩

/-- C10: a request constructed without explicit question-type-mix fractions
gets the declared defaults 0.4 (mcq), 0.3 (short answer) and 0.3 (long
answer), which sum exactly to 1 (floats are modelled as exact rationals; the
decimal literals of schema.py lines 157-166 are exact in the model). -/
theorem C10_default_mix (d : String) (fields : List (String × Json)) (r : AssessmentRequest)
    (h1 : lookupField fields "mcq_percentage" = none)
    (h2 : lookupField fields "short_answer_percentage" = none)
    (h3 : lookupField fields "long_answer_percentage" = none)
    (hok : vAssessmentRequest d (Json.obj fields) = Except.ok r) :
    r.mcq_percentage = some (4 / 10) ∧ r.short_answer_percentage = some (3 / 10) ∧
    r.long_answer_percentage = some (3 / 10) ∧ (4 / 10 + 3 / 10 + 3 / 10 : ℚ) = 1 := by
  obtain ⟨-, -, hm, hs, hl, -⟩ := vAssessmentRequest_ok_inv hok
  rw [optField, h1] at hm
  rw [optField, h2] at hs
  rw [optField, h3] at hl
  simp only [vOptFracDefault] at hm hs hl
  injection hm with hm2
  injection hs with hs2
  injection hl with hl2
  exact ⟨hm2.symm, hs2.symm, hl2.symm, by norm_num⟩

/-- C10 witness: the defaults of a concrete request constructed from its
required fields only. -/
theorem C10_witness :
    (⟨"cs", "lo", BloomsTaxonomyLevel.remember, DifficultyLevel.easy, 10, 4, none,
      some (4 / 10), some (3 / 10), some (3 / 10),
      some "dflt"⟩ : AssessmentRequest).mcq_percentage = some (4 / 10) ∧
    (⟨"cs", "lo", BloomsTaxonomyLevel.remember, DifficultyLevel.easy, 10, 4, none,
      some (4 / 10), some (3 / 10), some (3 / 10),
      some "dflt"⟩ : AssessmentRequest).short_answer_percentage = some (3 / 10) ∧
    (⟨"cs", "lo", BloomsTaxonomyLevel.remember, DifficultyLevel.easy, 10, 4, none,
      some (4 / 10), some (3 / 10), some (3 / 10),
      some "dflt"⟩ : AssessmentRequest).long_answer_percentage = some (3 / 10) ∧
    (4 / 10 + 3 / 10 + 3 / 10 : ℚ) = 1 :=
  C10_default_mix "dflt"
    [("curriculum_standard", Json.str "cs"), ("learning_objectives", Json.str "lo"),
     ("blooms_taxonomy_level", Json.str "remember"), ("toughness_level", Json.str "easy"),
     ("total_marks", Json.int 10), ("number_of_questions", Json.int 4)]
    _ rfl rfl rfl rfl

theorem vAssessmentResult_ok_metadata {fields : List (String × Json)} {r : AssessmentResult}
    (h : vAssessmentResult (Json.obj fields) = Except.ok r) :
    ∃ v, lookupField fields "metadata" = some v := by
  simp only [vAssessmentResult] at h
  obtain ⟨ti, h1, h⟩ := exceptBind_ok h
  obtain ⟨de, h2, h⟩ := exceptBind_ok h
  obtain ⟨cs, h3, h⟩ := exceptBind_ok h
  obtain ⟨lo, h4, h⟩ := exceptBind_ok h
  obtain ⟨tb, h5, h⟩ := exceptBind_ok h
  obtain ⟨qs, h6, h⟩ := exceptBind_ok h
  obtain ⟨md, h7, h⟩ := exceptBind_ok h
  obtain ⟨mv, hmv, -⟩ := exceptBind_ok h7
  cases hlook : lookupField fields "metadata" with
  | some v => exact ⟨v, rfl⟩
  | none =>
      rw [reqField, hlook] at hmv
      exact Except.noConfusion hmv

/-- C6: a service reply whose cleaned content parses to a JSON object lacking
the required `metadata` field makes `create_assessment` fail with the
parse-error condition (schema-validation failure wrapped in the raised
`ValueError`, raw text logged) rather than return a partial result. -/
theorem C6_missing_metadata (jsonLoads : PyStr → Except String Json) (content : PyStr)
    (rest : List ChatChoice) (fields : List (String × Json))
    (hparse : jsonLoads (stripFences content) = Except.ok (Json.obj fields))
    (hmiss : lookupField fields "metadata" = none) :
    ∃ e, createAssessment jsonLoads ⟨⟨content⟩ :: rest⟩ =
      (Except.error (PyError.valueError ("Failed to parse JSON response: " ++ e)),
       ["Error parsing response: " ++ String.mk content]) := by
  cases hval : vAssessmentResult (Json.obj fields) with
  | error e =>
      refine ⟨e, ?_⟩
      simp [createAssessment, hparse, hval]
  | ok r =>
      exfalso
      obtain ⟨v, hv⟩ := vAssessmentResult_ok_metadata hval
      rw [hmiss] at hv
      exact Option.noConfusion hv

/-- C6 witness: a reply that is a complete `AssessmentResult` object except
for its missing `metadata` field is rejected with the parse-error condition. -/
theorem C6_witness :
    ∃ e, createAssessment
        (fun _ => Except.ok (Json.obj
          [("title", Json.str "T"), ("curriculum_standard", Json.str "CS"),
           ("learning_objectives", Json.str "LO"),
           ("target_blooms_level", Json.str "remember"),
           ("questions", Json.arr []), ("student_instructions", Json.str "SI")]))
        ⟨[⟨"x".data⟩]⟩ =
      (Except.error (PyError.valueError ("Failed to parse JSON response: " ++ e)),
       ["Error parsing response: " ++ String.mk "x".data]) :=
  C6_missing_metadata
    (fun _ => Except.ok (Json.obj
      [("title", Json.str "T"), ("curriculum_standard", Json.str "CS"),
       ("learning_objectives", Json.str "LO"),
       ("target_blooms_level", Json.str "remember"),
       ("questions", Json.arr []), ("student_instructions", Json.str "SI")]))
    "x".data [] _ rfl rfl

theorem vBlooms_value (b : BloomsTaxonomyLevel) :
    vBlooms (Json.str (bloomsValue b)) = Except.ok b := by
  cases b <;> rfl

theorem vDifficulty_value (dl : DifficultyLevel) :
    vDifficulty (Json.str (difficultyValue dl)) = Except.ok dl := by
  cases dl <;> rfl

theorem vOptStr_dump (o : Option String) : vOptStr (some (optStrJson o)) = Except.ok o := by
  cases o <;> rfl

theorem vOptStrDefault_dump (d : String) (o : Option String) :
    vOptStrDefault d (some (optStrJson o)) = Except.ok o := by
  cases o <;> rfl

theorem vOptFracDefault_dump (dflt : ℚ) {o : Option ℚ}
    (hb : ∀ q, o = some q → 0 ≤ q ∧ q ≤ 1) :
    vOptFracDefault dflt (some (optFloatJson o)) = Except.ok o := by
  cases o with
  | none => rfl
  | some q => simp [optFloatJson, vOptFracDefault, hb q rfl]

theorem vIntGe_pos {n : Int} (h : 1 ≤ n) : vIntGe 1 (Json.int n) = Except.ok n := by
  simp [vIntGe, h]

/-- C8: every `AssessmentRequest` whose numeric fields respect the declared
bounds (total marks ≥ 1, question count ≥ 1, mix fractions in [0, 1])
round-trips through structural serialization (`model_dump`) followed by
validation (`model_validate`) with every field preserved. -/
theorem C8_round_trip (d : String) (r : AssessmentRequest)
    (htm : 1 ≤ r.total_marks) (hnq : 1 ≤ r.number_of_questions)
    (hm : ∀ q, r.mcq_percentage = some q → 0 ≤ q ∧ q ≤ 1)
    (hs : ∀ q, r.short_answer_percentage = some q → 0 ≤ q ∧ q ≤ 1)
    (hl : ∀ q, r.long_answer_percentage = some q → 0 ≤ q ∧ q ≤ 1) :
    vAssessmentRequest d (dumpRequest r) = Except.ok r := by
  simp +decide [vAssessmentRequest, dumpRequest, reqField, optField, lookupField,
    vStr, vBlooms_value, vDifficulty_value, vIntGe_pos htm, vIntGe_pos hnq,
    vOptStr_dump, vOptFracDefault_dump _ hm, vOptFracDefault_dump _ hs,
    vOptFracDefault_dump _ hl, vOptStrDefault_dump, Bind.bind, Except.bind]

/-- C8 witness: the round trip on a concrete fully populated request. -/
theorem C8_witness :
    vAssessmentRequest "fmt"
        (dumpRequest
          ⟨"cs", "lo", BloomsTaxonomyLevel.apply, DifficultyLevel.medium, 20, 5,
           some "extra", some (4 / 10), some (3 / 10), some (3 / 10), some "fmt"⟩) =
      Except.ok
        ⟨"cs", "lo", BloomsTaxonomyLevel.apply, DifficultyLevel.medium, 20, 5,
         some "extra", some (4 / 10), some (3 / 10), some (3 / 10), some "fmt"⟩ :=
  C8_round_trip "fmt" _ (by decide) (by decide)
    (fun q hq => by injection hq with h2; rw [← h2]; norm_num)
    (fun q hq => by injection hq with h2; rw [← h2]; norm_num)
    (fun q hq => by injection hq with h2; rw [← h2]; norm_num)
